import Mathlib

/-!
Shallow embedding of the manifest-driven binary-integrity verification and
secure-postinstall pipeline of `mcp-prompt-optimizer-local`.

The embedding models, from the source:
  * `src/lib/binary-integrity-verifier.js`
      - `detectPlatform`   (platform/arch normalisation)
      - `loadManifest`     (read + JSON.parse, error wrapping)
      - `verifyBinary`     (placeholder heuristic, SHA-256 comparison,
                            advisory size cross-check)
      - `verifyCurrentPlatform` (entry lookup, `missing` handling)
  * `src/secure-postinstall.js`
      - `detectCIEnvironment` (strict-CI / developer-override bypass)
      - `downloadFile`        (redirect following, stream-error cleanup)
      - `runSecurityGates`    (ordered short-circuiting gates 1-3)
      - `run`                 (gate 4 = compatibility checks, exit code)

External effects are made explicit parameters:
  * the filesystem is a function `String → Option String` (path to file
    content, decoded as text; a byte size is the UTF-8 byte size),
  * the SHA-256 primitive (`crypto.createHash('sha256')`) is a parameter
    `sha256hex : String → String`,
  * `JSON.parse` is a parameter `parse : String → Except String α`,
  * the network is a function from URL to an HTTP step,
  * gate collaborators are `Except`-valued parameters.

Console output is not modelled except for the advisory size-mismatch
warning of `verifyBinary`, which the spec explicitly makes observable
("logged, not blocking"); it is returned alongside the result.
-/

/-- JS string `includes` on lists of characters: `listContains pat hay`
is `true` iff `pat` occurs as a contiguous infix of `hay`. -/
def listContains (pat : List Char) : List Char → Bool
  | [] => pat.isEmpty
  | c :: rest => pat.isPrefixOf (c :: rest) || listContains pat rest

/-- JS `String.prototype.includes`: does `s` contain `pat` as a substring? -/
def strContains (s pat : String) : Bool :=
  listContains pat.toList s.toList

/-- Propositional substring containment, used to state "the error message
contains ..." claims: `msg` splits as `pre ++ s ++ post`. -/
def containsSubstr (msg s : String) : Prop :=
  ∃ pre post, msg = pre ++ s ++ post

/-- JS truthiness of an environment variable (`!!process.env.X`):
unset and the empty string are falsy, everything else truthy. -/
def jsTruthy : Option String → Bool
  | none => false
  | some s => !(s == "")

/-- JS `array.join(', ')` as used for `availablePlatforms.join(', ')`. -/
def joinComma : List String → String
  | [] => ""
  | [k] => k
  | k :: k' :: rest => k ++ ", " ++ joinComma (k' :: rest)

/-- `path.basename`: the final path segment (POSIX separator, no
trailing separator in the paths this pipeline builds). -/
def basename (p : String) : String :=
  String.mk ((p.toList.reverse.takeWhile (fun c => c ≠ '/')).reverse)

/-- Printing of a JS value that may be `null` inside a template literal. -/
def optStr : Option String → String
  | none => "null"
  | some s => s

/-- One manifest `binaries` entry (spec §3 Artifact Entry). `sha256` and
`size` are nullable in the manifest, hence `Option`. -/
structure BinaryInfo where
  filename : String := ""
  sha256 : Option String := none
  size : Option Nat := none
  missing : Bool := false
  dev_placeholder : Bool := false
deriving Repr, DecidableEq

/-- The manifest as consumed by the verifier: the `binaries` mapping is an
association list from platform key to entry (JS object lookup). Other
manifest fields (`version`, `security`, ...) are not consulted by the
verifier functions modelled here. -/
structure Manifest where
  binaries : List (String × BinaryInfo)
deriving Repr, DecidableEq

/-- The ephemeral verification result object (spec §3). Field subsets
differ between the placeholder and the real-binary return sites, hence
`Option`/defaults. `lastModified` (an fs timestamp) is not modelled. -/
structure VerificationResult where
  verified : Bool
  hash : Option String := none
  size : Option Nat := none
  isPlaceholder : Bool := false
  devMode : Bool := false
  platform : Option String := none
deriving Repr, DecidableEq

/-- `detectPlatform`, `platformMap` lookup: `win32`, `darwin`, `linux`
map to themselves; anything else misses the map (`|| platform` fallback). -/
def platformMapLookup (p : String) : Option String :=
  if p = "win32" then some "win32"
  else if p = "darwin" then some "darwin"
  else if p = "linux" then some "linux"
  else none

/-- `detectPlatform`, `archMap` lookup: `x64`/`x86_64` map to `x64`,
`arm64`/`aarch64` to `arm64`; anything else misses the map
(`|| 'x64'` fallback). -/
def archMapLookup (a : String) : Option String :=
  if a = "x64" then some "x64"
  else if a = "x86_64" then some "x64"
  else if a = "arm64" then some "arm64"
  else if a = "aarch64" then some "arm64"
  else none

/-- `BinaryIntegrityVerifier.detectPlatform`, over the raw
`process.platform` / `process.arch` strings. -/
def detectPlatform (platform arch : String) : String :=
  let normalizedPlatform := (platformMapLookup platform).getD platform
  let normalizedArch := (archMapLookup arch).getD "x64"
  normalizedPlatform ++ "-" ++ normalizedArch

/-- `loadManifest` (first call of a fresh instance, so the memoised
`this.manifest` is `null`): read the file, `JSON.parse` it, and wrap any
failure of either step in an error naming the attempted path. The read
and the parse are external effects, passed as parameters; the parse
result type `α` is abstract because the source performs no validation of
the parsed value. -/
def loadManifest {α : Type} (manifestPath : String)
    (readFile : Except String String) (parse : String → Except String α) :
    Except String α :=
  match readFile with
  | .error msg =>
      .error ("Failed to load manifest from " ++ manifestPath ++ ": " ++ msg)
  | .ok manifestData =>
      match parse manifestData with
      | .error msg =>
          .error ("Failed to load manifest from " ++ manifestPath ++ ": " ++ msg)
      | .ok m => .ok m

/-- The placeholder heuristic of `verifyBinary`:
`fileSize < 10000 && fileBuffer.toString().includes('placeholder')`. -/
def isPlaceholderFile (content : String) : Bool :=
  decide (content.utf8ByteSize < 10000) && strContains content "placeholder"

/-- The hash-mismatch error message of `verifyBinary` (template literal,
lines 93-113), including expected digest, actual digest and file size. -/
def hashMismatchMessage (fileName : String) (expectedHash : Option String)
    (actualHash : String) (fileSize : Nat) : String :=
  "Binary integrity check FAILED!\n                \n❌ Hash mismatch detected:\n   File: "
    ++ fileName
    ++ "\n   Expected: " ++ optStr expectedHash
    ++ "\n   Actual:   " ++ actualHash
    ++ "\n   Size: " ++ toString fileSize ++ " bytes"
    ++ "\n   \n⚠️  This could indicate:\n   - Binary has been modified/corrupted\n   - Man-in-the-middle attack\n   - Storage corruption\n   - Wrong binary version\n   \n🔧 Solutions:\n   1. Re-download: npm uninstall && npm install mcp-prompt-optimizer-local\n   2. Clear cache: npm cache clean --force\n   3. Check antivirus software isn't modifying files\n   4. Contact support@promptoptimizer.help if problem persists\n   \n🛡️  For security, installation cannot continue with unverified binary."

/-- The advisory size-mismatch warning line of `verifyBinary` (line 122). -/
def sizeWarningMessage (expected actual : Nat) : String :=
  "⚠️  Warning: Binary size mismatch (expected " ++ toString expected
    ++ ", got " ++ toString actual ++ ")"

/-- `BinaryIntegrityVerifier.verifyBinary`. Every error thrown inside the
`try` is re-wrapped by the outer `catch` as
`Binary verification failed: ${error.message}`. On success, the returned
list carries the console warnings emitted (only the size-mismatch
warning is observable; the JS guard `binaryInfo.size &&` is number
truthiness, so a recorded size of `0` suppresses the check). -/
def verifyBinary (devMode : Bool) (fs : String → Option String)
    (sha256hex : String → String) (binaryPath : String)
    (expectedHash : Option String) (binaryInfo : BinaryInfo) :
    Except String (VerificationResult × List String) :=
  match fs binaryPath with
  | none =>
      .error ("Binary verification failed: Binary not found: " ++ binaryPath)
  | some content =>
      let fileSize := content.utf8ByteSize
      if isPlaceholderFile content then
        if devMode || binaryInfo.dev_placeholder then
          .ok ({ verified := true, hash := some "placeholder",
                 size := some fileSize, isPlaceholder := true,
                 devMode := true }, [])
        else
          .error ("Binary verification failed: Placeholder binary detected in production mode: "
                    ++ binaryPath)
      else
        let actualHash := sha256hex content
        if some actualHash ≠ expectedHash then
          .error ("Binary verification failed: "
                    ++ hashMismatchMessage (basename binaryPath) expectedHash
                         actualHash fileSize)
        else
          let warnings :=
            match binaryInfo.size with
            | some s => if s ≠ 0 ∧ s ≠ fileSize
                        then [sizeWarningMessage s fileSize] else []
            | none => []
          .ok ({ verified := true, hash := some actualHash,
                 size := some fileSize, isPlaceholder := false }, warnings)

/-- The unsupported-platform error message of `verifyCurrentPlatform`
(template literal, lines 212-224): lists the available platform keys and
echoes the raw `process.platform` / `process.arch`. -/
def unsupportedPlatformMessage (platformKey : String)
    (availablePlatforms : List String) (rawPlatform rawArch : String) : String :=
  "No binary available for platform: " ++ platformKey
    ++ "\n            \nAvailable platforms: " ++ joinComma availablePlatforms
    ++ "\n\nThis usually means:\n1. Your platform isn't supported yet\n2. The package hasn't been built for your architecture\n3. You're running on an unsupported system\n\nDetected platform: "
    ++ rawPlatform
    ++ "\nDetected architecture: " ++ rawArch
    ++ "\n\nContact support@promptoptimizer.help for assistance."

/-- `BinaryIntegrityVerifier.verifyCurrentPlatform`, with the manifest
already loaded (a successful `loadManifest`), raw platform/arch strings
and the resolved `bin` directory as inputs. `path.join(binDir, filename)`
is modelled as POSIX concatenation. -/
def verifyCurrentPlatform (devMode : Bool) (fs : String → Option String)
    (sha256hex : String → String) (manifest : Manifest)
    (rawPlatform rawArch : String) (binDir : String) :
    Except String VerificationResult :=
  let platformKey := detectPlatform rawPlatform rawArch
  match manifest.binaries.lookup platformKey with
  | none =>
      .error (unsupportedPlatformMessage platformKey
                (manifest.binaries.map Prod.fst) rawPlatform rawArch)
  | some binaryInfo =>
      let binaryPath := binDir ++ "/" ++ binaryInfo.filename
      if binaryInfo.missing then
        if devMode || binaryInfo.dev_placeholder then
          .ok { verified := true, platform := some platformKey,
                devMode := true, isPlaceholder := true }
        else
          .error ("Binary not available for " ++ platformKey
                    ++ " - missing in production build")
      else
        match verifyBinary devMode fs sha256hex binaryPath
                binaryInfo.sha256 binaryInfo with
        | .error e => .error e
        | .ok (r, _) => .ok { r with platform := some platformKey }

/-- The environment variables consulted by `detectCIEnvironment`
(`none` = unset). -/
structure Env where
  ci : Option String := none
  github_actions : Option String := none
  travis : Option String := none
  circleci : Option String := none
  jenkins_url : Option String := none
  optimizer_skip_security : Option String := none
deriving Repr, DecidableEq

/-- The strict-CI conjunction of `detectCIEnvironment` (lines 27-34):
the `CI` variable must be `'true'` or `'1'` AND at least one provider
marker (`GITHUB_ACTIONS`/`TRAVIS`/`CIRCLECI` equal to `'true'`, or a
truthy `JENKINS_URL`) must agree. -/
def strictCI (e : Env) : Bool :=
  (e.ci == some "true" || e.ci == some "1") &&
    (e.github_actions == some "true" || e.travis == some "true" ||
      e.circleci == some "true" || jsTruthy e.jenkins_url)

/-- The explicit developer override of `detectCIEnvironment` (line 37):
`OPTIMIZER_SKIP_SECURITY === 'true'`. -/
def devOverride (e : Env) : Bool :=
  e.optimizer_skip_security == some "true"

/-- `SecurePostInstaller.detectCIEnvironment`: bypass iff strict CI or
developer override. -/
def detectCIEnvironment (e : Env) : Bool :=
  strictCI e || devOverride e

/-- What the network answers for one `https.get(url, ...)`:
a connection error (the request's `'error'` event), a 301/302 redirect
carrying an optional `location` header, any other non-200 status, or a
200 whose body streams to the file — optionally aborted midway by a
write-stream `'error'` event after `partial` bytes were written. -/
inductive HttpStep where
  | connError (msg : String)
  | redirect (location : Option String)
  | httpStatus (code : Nat) (statusMessage : String)
  | okStream (body : String) (streamError : Option (String × String))
deriving Repr, DecidableEq

/-- The filesystem state threaded through `downloadFile`: an association
list from path to file content. -/
abbrev Fs := List (String × String)

def fsSet (fs : Fs) (p v : String) : Fs :=
  (p, v) :: fs.filter (fun e => e.1 ≠ p)

def fsDel (fs : Fs) (p : String) : Fs :=
  fs.filter (fun e => e.1 ≠ p)

def fsGet (fs : Fs) (p : String) : Option String :=
  fs.lookup p

/-- `SecurePostInstaller.downloadFile`. `fs.createWriteStream` creates
(or truncates) the destination file as soon as the call is made, before
any response arrives; only the write-stream `'error'` handler unlinks it.
The JS recursion on redirects is unbounded; `fuel` bounds it in the model
(each theorem supplies enough fuel). In the `okStream` stream-error case
`partial` is the partially written content and `msg` the error. Returns
the promise outcome together with the final filesystem state. -/
def downloadFile (net : String → HttpStep) :
    Nat → String → String → Fs → Except String Unit × Fs
  | 0, _, _, fs0 => (.error "model: redirect fuel exhausted", fs0)
  | fuel + 1, url, destinationPath, fs0 =>
      let fs1 := fsSet fs0 destinationPath ""
      match net url with
      | .connError msg => (.error msg, fs1)
      | .redirect none => (.error "Redirect without location header", fs1)
      | .redirect (some loc) => downloadFile net fuel loc destinationPath fs1
      | .httpStatus code statusMessage =>
          (.error ("HTTP " ++ toString code ++ ": " ++ statusMessage), fs1)
      | .okStream body none => (.ok (), fsSet fs1 destinationPath body)
      | .okStream _ (some (partial_, msg)) =>
          (.error msg, fsDel (fsSet fs1 destinationPath partial_) destinationPath)

/-- The result of the Gate 1 collaborator `requireValidApiKey`
(`{key, tier, strength, valid}`; only `tier` is read by the sequencer). -/
structure ApiKeyResult where
  tier : String := "basic"
deriving Repr, DecidableEq

/-- The aggregate result object built by `runSecurityGates`. -/
structure GateResults where
  apiKey : Option ApiKeyResult := none
  binaryIntegrity : Option VerificationResult := none
  binaryAvailable : Option String := none
  overall : Bool := false
  errors : List String := []
  warnings : List String := []
  skippedInCI : Bool := false
deriving Repr, DecidableEq

/-- Collaborator invocations, recorded in order, for the gate-ordering
claims: Gate 1 = `requireValidApiKey`, Gate 2 = `ensureBinaryAvailable`,
Gate 3 = `BinaryIntegrityVerifier.quickVerify`, Gate 4 =
`runCompatibilityChecks`. -/
inductive GateCall where
  | apiKey
  | binaryAvailability
  | binaryIntegrity
  | compatibility
deriving Repr, DecidableEq

/-- `SecurePostInstaller.runSecurityGates`, with the three gate
collaborators passed as `Except`-valued parameters (`.error` = the
collaborator threw). Returns the results object and the ordered list of
collaborators actually invoked. -/
def runSecurityGates (isCI : Bool)
    (apiKeyCheck : Except String ApiKeyResult)
    (ensureBinary : Except String String)
    (quickVerify : Except String VerificationResult) :
    GateResults × List GateCall :=
  let results0 : GateResults := { skippedInCI := isCI }
  if isCI then
    ({ results0 with overall := true }, [])
  else
    match apiKeyCheck with
    | .error msg =>
        ({ results0 with errors := ["API Key: " ++ msg] }, [.apiKey])
    | .ok apiKeyResult =>
        match ensureBinary with
        | .error msg =>
            ({ results0 with apiKey := some apiKeyResult,
                             errors := ["Binary Availability: " ++ msg] },
             [.apiKey, .binaryAvailability])
        | .ok binaryPath =>
            match quickVerify with
            | .error msg =>
                ({ results0 with apiKey := some apiKeyResult,
                                 binaryAvailable := some binaryPath,
                                 errors := ["Binary Integrity: " ++ msg] },
                 [.apiKey, .binaryAvailability, .binaryIntegrity])
            | .ok binaryResult =>
                ({ results0 with apiKey := some apiKeyResult,
                                 binaryAvailable := some binaryPath,
                                 binaryIntegrity := some binaryResult,
                                 warnings := if binaryResult.isPlaceholder
                                             then ["Using development placeholder binary"]
                                             else [],
                                 overall := true },
                 [.apiKey, .binaryAvailability, .binaryIntegrity])

/-- One compatibility sub-check result (`{passed, message}`). -/
structure CheckResult where
  passed : Bool
  message : String := ""
deriving Repr, DecidableEq

/-- The three sub-checks of `runCompatibilityChecks` (Gate 4), evaluated
exhaustively by the source; their outcomes are environment probes, passed
in as a value. -/
structure CompatResults where
  nodeVersion : CheckResult
  platform : CheckResult
  permissions : CheckResult
deriving Repr, DecidableEq

/-- `Object.values(compatibilityResults).some(c => !c.passed)`. -/
def compatHasIssues (c : CompatResults) : Bool :=
  !c.nodeVersion.passed || !c.platform.passed || !c.permissions.passed

/-- `SecurePostInstaller.run` (the happy-path try block): run the
security gates; on `overall = false` exit 1 without compatibility
checks; otherwise, unless in CI, run Gate 4 (compatibility) and exit 1
when any sub-check failed; else exit 0. Post-install tasks and console
messages are not modelled. Returns the exit code and the ordered
collaborator invocations. -/
def runInstallerPipeline (isCI : Bool)
    (apiKeyCheck : Except String ApiKeyResult)
    (ensureBinary : Except String String)
    (quickVerify : Except String VerificationResult)
    (compat : CompatResults) : Nat × List GateCall :=
  let secRes := runSecurityGates isCI apiKeyCheck ensureBinary quickVerify
  if secRes.1.overall = false then (1, secRes.2)
  else if isCI then (0, secRes.2)
  else
    let calls := secRes.2 ++ [GateCall.compatibility]
    if compatHasIssues compat then (1, calls) else (0, calls)

/-! ## Helper lemmas -/

theorem containsSubstr_intro (pre s post : String) :
    containsSubstr (pre ++ s ++ post) s :=
  ⟨pre, post, rfl⟩

theorem containsSubstr_wrap (a b : String) {m s : String}
    (h : containsSubstr m s) : containsSubstr (a ++ m ++ b) s := by
  obtain ⟨p, q, rfl⟩ := h
  exact ⟨a ++ p, q ++ b, by simp [String.append_assoc]⟩

theorem containsSubstr_appendLeft (a : String) {m s : String}
    (h : containsSubstr m s) : containsSubstr (a ++ m) s := by
  have := containsSubstr_wrap a "" h
  rwa [String.append_empty] at this

theorem containsSubstr_appendRight (b : String) {m s : String}
    (h : containsSubstr m s) : containsSubstr (m ++ b) s := by
  have := containsSubstr_wrap "" b h
  rwa [String.empty_append] at this

theorem containsSubstr_refl (s : String) : containsSubstr s s :=
  ⟨"", "", by rw [String.empty_append, String.append_empty]⟩

/-- Every element of `ks` occurs as a substring of `joinComma ks`. -/
theorem joinComma_contains {ks : List String} {k : String} (hk : k ∈ ks) :
    containsSubstr (joinComma ks) k := by
  induction ks with
  | nil => cases hk
  | cons a rest ih =>
    cases rest with
    | nil =>
        rcases List.mem_singleton.mp hk with rfl
        exact containsSubstr_refl k
    | cons b rest' =>
        rcases List.mem_cons.mp hk with rfl | hmem
        · rw [joinComma]
          exact containsSubstr_appendRight _ (containsSubstr_appendRight _
            (containsSubstr_refl k))
        · rw [joinComma]
          exact containsSubstr_appendLeft _ (ih hmem)

theorem fsGet_fsSet (fs : Fs) (p v : String) :
    fsGet (fsSet fs p v) p = some v := by
  simp [fsGet, fsSet, List.lookup]

theorem fsGet_fsDel (fs : Fs) (p : String) :
    fsGet (fsDel fs p) p = none := by
  simp [fsGet, fsDel]
  exact fun a b _ h1 h2 => h1 h2.symm

/-! ## Claim theorems -/

/-- C8: platform detection returns `{os}-{arch}` where the architecture
normalises to `arm64` exactly for the raw strings `arm64`/`aarch64` and
to `x64` for `x64`/`x86_64` and every other string (documented fallback),
while the operating-system name passes through unchanged for `win32`,
`darwin`, `linux` and every other name alike — detection never fails. -/
theorem C8_detectPlatform_shape (os arch : String) :
    detectPlatform os arch =
      os ++ "-" ++ (if arch = "arm64" ∨ arch = "aarch64" then "arm64" else "x64") := by
  unfold detectPlatform platformMapLookup archMapLookup
  split_ifs <;> simp_all

/-- C2: a file under the 10000-byte threshold whose content contains the
`placeholder` marker is classified as a placeholder; `verifyBinary` then
returns `verified = true, isPlaceholder = true` (for every hash function,
so no real digest is consulted) exactly when development mode is active
or the entry is flagged `dev_placeholder`, and otherwise fails with the
distinct placeholder-in-production error. -/
theorem C2_placeholder_classification (devMode : Bool)
    (fs : String → Option String) (sha256hex : String → String)
    (binaryPath : String) (expectedHash : Option String) (info : BinaryInfo)
    (content : String) (hfs : fs binaryPath = some content)
    (hsmall : content.utf8ByteSize < 10000)
    (hmark : strContains content "placeholder" = true) :
    ((devMode || info.dev_placeholder) = true →
        verifyBinary devMode fs sha256hex binaryPath expectedHash info =
          .ok ({ verified := true, hash := some "placeholder",
                 size := some content.utf8ByteSize, isPlaceholder := true,
                 devMode := true }, [])) ∧
    ((devMode || info.dev_placeholder) = false →
        verifyBinary devMode fs sha256hex binaryPath expectedHash info =
          .error ("Binary verification failed: Placeholder binary detected in production mode: "
                    ++ binaryPath)) := by
  have hph : isPlaceholderFile content = true := by
    simp [isPlaceholderFile, hsmall, hmark]
  constructor <;> intro hdev <;> simp [verifyBinary, hfs, hph, hdev]

/-- Witness for C2 at a concrete placeholder file, hitting both the
dev-accept branch and the production-reject branch. -/
theorem C2_placeholder_classification_witness :
    (verifyBinary false (fun p => if p = "bin/opt" then some "placeholder build" else none)
        (fun _ => "deadbeef") "bin/opt" (some "feed") { dev_placeholder := true } =
      .ok ({ verified := true, hash := some "placeholder",
             size := some 17, isPlaceholder := true, devMode := true }, [])) ∧
    (verifyBinary false (fun p => if p = "bin/opt" then some "placeholder build" else none)
        (fun _ => "deadbeef") "bin/opt" (some "feed") { dev_placeholder := false } =
      .error ("Binary verification failed: Placeholder binary detected in production mode: bin/opt")) :=
  ⟨(C2_placeholder_classification false _ _ "bin/opt" (some "feed")
      { dev_placeholder := true } "placeholder build" (by decide) (by decide)
      (by decide)).1 (by decide),
   (C2_placeholder_classification false _ _ "bin/opt" (some "feed")
      { dev_placeholder := false } "placeholder build" (by decide) (by decide)
      (by decide)).2 (by decide)⟩

/-- C9: when the computed digest equals the manifest's recorded digest
but the recorded (non-zero) size differs from the on-disk size,
`verifyBinary` still succeeds with `verified = true`; the size mismatch
only emits the advisory warning line. (The JS guard `binaryInfo.size &&`
is number truthiness, so a recorded size of `0` would suppress even the
warning — the hypothesis `s ≠ 0` matches a real recorded size.) -/
theorem C9_size_mismatch_advisory (devMode : Bool)
    (fs : String → Option String) (sha256hex : String → String)
    (binaryPath : String) (info : BinaryInfo) (content : String) (s : Nat)
    (hfs : fs binaryPath = some content)
    (hph : isPlaceholderFile content = false)
    (hsize : info.size = some s) (hs0 : s ≠ 0)
    (hne : s ≠ content.utf8ByteSize) :
    verifyBinary devMode fs sha256hex binaryPath (some (sha256hex content)) info =
      .ok ({ verified := true, hash := some (sha256hex content),
             size := some content.utf8ByteSize, isPlaceholder := false },
           [sizeWarningMessage s content.utf8ByteSize]) := by
  simp [verifyBinary, hfs, hph, hsize, hs0, hne]

/-- Witness for C9: a real-looking file whose recorded size is stale. -/
theorem C9_size_mismatch_advisory_witness :
    verifyBinary false (fun p => if p = "bin/opt" then some "REALBINARYCONTENT" else none)
      (fun _ => "abc123") "bin/opt" (some "abc123")
      { sha256 := some "abc123", size := some 99 } =
      .ok ({ verified := true, hash := some "abc123",
             size := some 17, isPlaceholder := false },
           [sizeWarningMessage 99 17]) :=
  C9_size_mismatch_advisory false _ (fun _ => "abc123") "bin/opt"
    { sha256 := some "abc123", size := some 99 } "REALBINARYCONTENT" 99
    (by decide) (by decide) (by decide) (by decide) (by decide)

/-- C10: for an entry with `missing = true`, `verifyCurrentPlatform`
decides without consulting the filesystem or the hash primitive (the
result is the same for every `fs` and every hash function): it accepts
with `verified = true, isPlaceholder = true` when development mode is
active or the entry is flagged `dev_placeholder`, and otherwise fails
with the binary-not-available-in-production error. -/
theorem C10_missing_entry_short_circuit (devMode : Bool) (m : Manifest)
    (rawPlatform rawArch binDir : String) (info : BinaryInfo)
    (hlookup : m.binaries.lookup (detectPlatform rawPlatform rawArch) = some info)
    (hmiss : info.missing = true) :
    (∀ fs fs' g g', verifyCurrentPlatform devMode fs g m rawPlatform rawArch binDir =
        verifyCurrentPlatform devMode fs' g' m rawPlatform rawArch binDir) ∧
    ((devMode || info.dev_placeholder) = true →
        ∀ fs g, verifyCurrentPlatform devMode fs g m rawPlatform rawArch binDir =
          .ok { verified := true,
                platform := some (detectPlatform rawPlatform rawArch),
                devMode := true, isPlaceholder := true }) ∧
    ((devMode || info.dev_placeholder) = false →
        ∀ fs g, verifyCurrentPlatform devMode fs g m rawPlatform rawArch binDir =
          .error ("Binary not available for " ++ detectPlatform rawPlatform rawArch
                    ++ " - missing in production build")) := by
  refine ⟨?_, ?_, ?_⟩
  · intro fs fs' g g'
    simp [verifyCurrentPlatform, hlookup, hmiss]
  · intro hdev fs g
    simp [verifyCurrentPlatform, hlookup, hmiss, hdev]
  · intro hdev fs g
    simp [verifyCurrentPlatform, hlookup, hmiss, hdev]

/-- Witness for C10: a `missing = true` entry accepted in dev mode and
rejected in production, over a filesystem with no files at all. -/
theorem C10_missing_entry_short_circuit_witness :
    verifyCurrentPlatform true (fun _ => none) (fun _ => "h")
      { binaries := [("linux-x64", { filename := "opt-linux-x64", missing := true })] }
      "linux" "x64" "bin" =
      .ok { verified := true, platform := some "linux-x64",
            devMode := true, isPlaceholder := true } :=
  (C10_missing_entry_short_circuit true
      { binaries := [("linux-x64", { filename := "opt-linux-x64", missing := true })] }
      "linux" "x64" "bin" { filename := "opt-linux-x64", missing := true }
      (by decide) (by decide)).2.1 (by decide) _ _

/-- The hash-mismatch message contains the expected digest verbatim. -/
theorem hashMismatchMessage_contains_expected (fileName eh ah : String)
    (sz : Nat) :
    containsSubstr (hashMismatchMessage fileName (some eh) ah sz) eh := by
  rw [hashMismatchMessage]
  simp only [optStr]
  exact containsSubstr_appendRight _ (containsSubstr_appendRight _
    (containsSubstr_appendRight _ (containsSubstr_appendRight _
    (containsSubstr_appendRight _ (containsSubstr_appendRight _
    (containsSubstr_appendLeft _ (containsSubstr_refl eh)))))))

/-- The hash-mismatch message contains the actual digest verbatim. -/
theorem hashMismatchMessage_contains_actual (fileName : String)
    (eh : Option String) (ah : String) (sz : Nat) :
    containsSubstr (hashMismatchMessage fileName eh ah sz) ah := by
  rw [hashMismatchMessage]
  exact containsSubstr_appendRight _ (containsSubstr_appendRight _
    (containsSubstr_appendRight _ (containsSubstr_appendRight _
    (containsSubstr_appendLeft _ (containsSubstr_refl ah)))))

/-- C1: for a manifest entry with `dev_placeholder = false` and
`missing = false` whose on-disk artifact exists and is not classified as
a placeholder, verification fails with a hash-mismatch error containing
both the recorded and the computed digest when they differ, and returns
`verified = true, isPlaceholder = false` when they are equal. -/
theorem C1_hash_verification (devMode : Bool) (fs : String → Option String)
    (sha256hex : String → String) (m : Manifest)
    (rawPlatform rawArch binDir : String) (info : BinaryInfo)
    (content h : String)
    (hlookup : m.binaries.lookup (detectPlatform rawPlatform rawArch) = some info)
    (hmiss : info.missing = false) (_hdev : info.dev_placeholder = false)
    (hsha : info.sha256 = some h)
    (hfs : fs (binDir ++ "/" ++ info.filename) = some content)
    (hph : isPlaceholderFile content = false) :
    (sha256hex content ≠ h →
        ∃ msg,
          verifyCurrentPlatform devMode fs sha256hex m rawPlatform rawArch binDir =
              .error msg ∧
            containsSubstr msg h ∧ containsSubstr msg (sha256hex content)) ∧
    (sha256hex content = h →
        ∃ r,
          verifyCurrentPlatform devMode fs sha256hex m rawPlatform rawArch binDir =
              .ok r ∧
            r.verified = true ∧ r.isPlaceholder = false) := by
  constructor
  · intro hne
    refine ⟨"Binary verification failed: " ++
      hashMismatchMessage (basename (binDir ++ "/" ++ info.filename)) (some h)
        (sha256hex content) content.utf8ByteSize, ?_, ?_, ?_⟩
    · simp [verifyCurrentPlatform, hlookup, hmiss, verifyBinary, hfs, hph, hsha, hne]
    · exact containsSubstr_appendLeft _
        (hashMismatchMessage_contains_expected _ _ _ _)
    · exact containsSubstr_appendLeft _
        (hashMismatchMessage_contains_actual _ _ _ _)
  · intro heq
    refine ⟨{ verified := true, hash := some (sha256hex content),
              size := some content.utf8ByteSize, isPlaceholder := false,
              platform := some (detectPlatform rawPlatform rawArch) }, ?_, rfl, rfl⟩
    simp [verifyCurrentPlatform, hlookup, hmiss, verifyBinary, hfs, hph, hsha, heq]

/-- Witness for C1: one concrete tampered file (digest differs) and one
concrete intact file (digest matches). -/
theorem C1_hash_verification_witness :
    (∃ msg,
      verifyCurrentPlatform false
          (fun p => if p = "bin/opt-linux-x64" then some "TAMPEREDCONTENTOFAREALBINARY" else none)
          (fun _ => "1111") { binaries := [("linux-x64",
            { filename := "opt-linux-x64", sha256 := some "2222" })] }
          "linux" "x64" "bin" = .error msg ∧
        containsSubstr msg "2222" ∧ containsSubstr msg "1111") ∧
    (∃ r,
      verifyCurrentPlatform false
          (fun p => if p = "bin/opt-linux-x64" then some "TAMPEREDCONTENTOFAREALBINARY" else none)
          (fun _ => "2222") { binaries := [("linux-x64",
            { filename := "opt-linux-x64", sha256 := some "2222" })] }
          "linux" "x64" "bin" = .ok r ∧
        r.verified = true ∧ r.isPlaceholder = false) :=
  ⟨(C1_hash_verification false _ (fun _ => "1111")
      { binaries := [("linux-x64",
        { filename := "opt-linux-x64", sha256 := some "2222" })] }
      "linux" "x64" "bin" { filename := "opt-linux-x64", sha256 := some "2222" }
      "TAMPEREDCONTENTOFAREALBINARY" "2222" (by decide) (by decide) (by decide)
      (by decide) (by decide) (by decide)).1 (by decide),
   (C1_hash_verification false _ (fun _ => "2222")
      { binaries := [("linux-x64",
        { filename := "opt-linux-x64", sha256 := some "2222" })] }
      "linux" "x64" "bin" { filename := "opt-linux-x64", sha256 := some "2222" }
      "TAMPEREDCONTENTOFAREALBINARY" "2222" (by decide) (by decide) (by decide)
      (by decide) (by decide) (by decide)).2 (by decide)⟩

/-- C7: when the detected platform key has no entry in the manifest's
`binaries` mapping, `verifyCurrentPlatform` fails with an
unsupported-platform error whose message contains every platform key
present in the manifest as well as the raw detected operating-system and
architecture strings. -/
theorem C7_unsupported_platform (devMode : Bool) (fs : String → Option String)
    (sha256hex : String → String) (m : Manifest)
    (rawPlatform rawArch binDir : String)
    (hlookup : m.binaries.lookup (detectPlatform rawPlatform rawArch) = none) :
    ∃ msg,
      verifyCurrentPlatform devMode fs sha256hex m rawPlatform rawArch binDir =
          .error msg ∧
        (∀ k ∈ m.binaries.map Prod.fst, containsSubstr msg k) ∧
        containsSubstr msg rawPlatform ∧ containsSubstr msg rawArch := by
  refine ⟨unsupportedPlatformMessage (detectPlatform rawPlatform rawArch)
    (m.binaries.map Prod.fst) rawPlatform rawArch, ?_, ?_, ?_, ?_⟩
  · simp [verifyCurrentPlatform, hlookup]
  · intro k hk
    rw [unsupportedPlatformMessage]
    exact containsSubstr_appendRight _ (containsSubstr_appendRight _
      (containsSubstr_appendRight _ (containsSubstr_appendRight _
      (containsSubstr_appendRight _ (containsSubstr_appendLeft _
      (joinComma_contains hk))))))
  · rw [unsupportedPlatformMessage]
    exact containsSubstr_appendRight _ (containsSubstr_appendRight _
      (containsSubstr_appendRight _ (containsSubstr_appendLeft _
      (containsSubstr_refl rawPlatform))))
  · rw [unsupportedPlatformMessage]
    exact containsSubstr_appendRight _ (containsSubstr_appendLeft _
      (containsSubstr_refl rawArch))

/-- Witness for C7: an unsupported key (`sunos-x64`) against a manifest
with two platform entries. -/
theorem C7_unsupported_platform_witness :
    ∃ msg,
      verifyCurrentPlatform false (fun _ => none) (fun _ => "h")
          { binaries := [("linux-x64", { filename := "a" }),
                         ("darwin-arm64", { filename := "b" })] }
          "sunos" "x64" "bin" = .error msg ∧
        (∀ k ∈ ["linux-x64", "darwin-arm64"], containsSubstr msg k) ∧
        containsSubstr msg "sunos" ∧ containsSubstr msg "x64" :=
  C7_unsupported_platform false _ _
    { binaries := [("linux-x64", { filename := "a" }),
                   ("darwin-arm64", { filename := "b" })] }
    "sunos" "x64" "bin" (by decide)

/-- JSON values, the result type of `JSON.parse` for the manifest
document (the parse itself is the JS runtime's, passed as a parameter
to `loadManifest`). -/
inductive Json where
  | null
  | bool (b : Bool)
  | num (n : Int)
  | str (s : String)
  | arr (elems : List Json)
  | obj (fields : List (String × Json))

/-- Does a parsed JSON document carry a given top-level field? The
manifest schema (spec §3) requires a top-level `binaries` field. -/
def jsonHasField (j : Json) (k : String) : Bool :=
  match j with
  | .obj fields => fields.any (fun f => f.1 == k)
  | _ => false

/-- C6 (amended): `loadManifest` fails with an error naming the
attempted path exactly when the file read or the JSON parse fails; a
successfully parsed document is returned as-is, with no schema
validation of any kind. -/
theorem C6_manifest_load_errors {α : Type} (manifestPath : String)
    (readFile : Except String String) (parse : String → Except String α) :
    (∀ m, readFile = .error m →
        ∃ msg, loadManifest manifestPath readFile parse = .error msg ∧
          containsSubstr msg manifestPath) ∧
    (∀ d m, readFile = .ok d → parse d = .error m →
        ∃ msg, loadManifest manifestPath readFile parse = .error msg ∧
          containsSubstr msg manifestPath) ∧
    (∀ d v, readFile = .ok d → parse d = .ok v →
        loadManifest manifestPath readFile parse = .ok v) := by
  refine ⟨?_, ?_, ?_⟩
  · rintro m rfl
    refine ⟨"Failed to load manifest from " ++ manifestPath ++ ": " ++ m, ?_, ?_⟩
    · simp [loadManifest]
    · exact ⟨"Failed to load manifest from ", ": " ++ m,
        by simp [String.append_assoc]⟩
  · rintro d m rfl hp
    refine ⟨"Failed to load manifest from " ++ manifestPath ++ ": " ++ m, ?_, ?_⟩
    · simp [loadManifest, hp]
    · exact ⟨"Failed to load manifest from ", ": " ++ m,
        by simp [String.append_assoc]⟩
  · rintro d v rfl hp
    simp [loadManifest, hp]

/-- Witness for C6 (amended): a concrete unreadable file and a concrete
parse failure both produce path-naming errors; a concrete parsed value
is passed through. -/
theorem C6_manifest_load_errors_witness :
    (∃ msg, loadManifest (α := Json) "/pkg/lib/manifest.json"
        (.error "ENOENT: no such file or directory")
        (fun _ => .error "unused") = .error msg ∧
      containsSubstr msg "/pkg/lib/manifest.json") ∧
    loadManifest "/pkg/lib/manifest.json" (.ok "{}")
        (fun s => if s = "{}" then .ok (Json.obj []) else .error "Unexpected token") =
      .ok (Json.obj []) :=
  ⟨(C6_manifest_load_errors "/pkg/lib/manifest.json"
      (.error "ENOENT: no such file or directory") (fun _ => .error "unused")).1
      "ENOENT: no such file or directory" rfl,
   (C6_manifest_load_errors "/pkg/lib/manifest.json" (.ok "{}")
      (fun s => if s = "{}" then .ok (Json.obj []) else .error "Unexpected token")).2.2
      "{}" (Json.obj []) rfl (by simp)⟩

/-- Counterexample to C6 as stated: a well-formed JSON document that
violates the manifest schema (it has no `binaries` field at all —
`JSON.parse('{}')` yields the empty object) is accepted by
`loadManifest` and returned as-is, not rejected as a hard failure. -/
theorem C6_schema_leniency_counterexample :
    loadManifest "/pkg/lib/manifest.json" (.ok "{}")
        (fun s => if s = "{}" then .ok (Json.obj []) else .error "Unexpected token") =
      .ok (Json.obj []) ∧
    jsonHasField (Json.obj []) "binaries" = false := by
  constructor
  · simp [loadManifest]
  · rfl

/-- C5 (amended): `downloadFile` deletes the partially written
destination file before surfacing the error only on a write-stream
error; on a non-200 HTTP status, a connection error, or a redirect
without a location header, the destination file created by opening the
write stream is left in place (empty, since no body was piped). -/
theorem C5_cleanup_behaviour (net : String → HttpStep) (fuel : Nat)
    (url dest : String) (fs0 : Fs) :
    (∀ body partialContent msg,
        net url = .okStream body (some (partialContent, msg)) →
        downloadFile net (fuel + 1) url dest fs0 = (.error msg,
            fsDel (fsSet (fsSet fs0 dest "") dest partialContent) dest) ∧
        fsGet (downloadFile net (fuel + 1) url dest fs0).2 dest = none) ∧
    (∀ code sm, net url = .httpStatus code sm →
        downloadFile net (fuel + 1) url dest fs0 =
          (.error ("HTTP " ++ toString code ++ ": " ++ sm), fsSet fs0 dest "") ∧
        fsGet (downloadFile net (fuel + 1) url dest fs0).2 dest = some "") ∧
    (∀ msg, net url = .connError msg →
        downloadFile net (fuel + 1) url dest fs0 = (.error msg, fsSet fs0 dest "") ∧
        fsGet (downloadFile net (fuel + 1) url dest fs0).2 dest = some "") ∧
    (net url = .redirect none →
        downloadFile net (fuel + 1) url dest fs0 =
          (.error "Redirect without location header", fsSet fs0 dest "") ∧
        fsGet (downloadFile net (fuel + 1) url dest fs0).2 dest = some "") := by
  refine ⟨?_, ?_, ?_, ?_⟩
  · intro body partialContent msg h
    refine ⟨by simp [downloadFile, h], ?_⟩
    simp [downloadFile, h, fsGet_fsDel]
  · intro code sm h
    refine ⟨by simp [downloadFile, h], ?_⟩
    simp [downloadFile, h, fsGet_fsSet]
  · intro msg h
    refine ⟨by simp [downloadFile, h], ?_⟩
    simp [downloadFile, h, fsGet_fsSet]
  · intro h
    refine ⟨by simp [downloadFile, h], ?_⟩
    simp [downloadFile, h, fsGet_fsSet]

/-- Witness for C5 (amended): a concrete write-stream error deletes the
partial file. -/
theorem C5_cleanup_behaviour_witness :
    downloadFile (fun _ => .okStream "BODY" (some ("BO", "write EPIPE"))) 1
        "https://github.com/nivlewd1/mcp-prompt-optimizer-local/releases/download/v3.1.0/opt-linux-x64"
        "bin/opt-linux-x64" [] =
      (.error "write EPIPE",
        fsDel (fsSet (fsSet [] "bin/opt-linux-x64" "") "bin/opt-linux-x64" "BO")
          "bin/opt-linux-x64") ∧
    fsGet (downloadFile (fun _ => .okStream "BODY" (some ("BO", "write EPIPE"))) 1
        "https://github.com/nivlewd1/mcp-prompt-optimizer-local/releases/download/v3.1.0/opt-linux-x64"
        "bin/opt-linux-x64" []).2 "bin/opt-linux-x64" = none :=
  (C5_cleanup_behaviour _ 0 _ "bin/opt-linux-x64" []).1 "BODY" "BO" "write EPIPE" rfl

/-- Counterexample to C5 as stated: a download failing with HTTP 404
(no stream error) surfaces the error while the destination file —
created empty by `fs.createWriteStream` — is still on disk. -/
theorem C5_leftover_file_counterexample :
    downloadFile (fun _ => .httpStatus 404 "Not Found") 1
        "https://github.com/nivlewd1/mcp-prompt-optimizer-local/releases/download/v3.1.0/opt-linux-x64"
        "bin/opt-linux-x64" [] =
      (.error "HTTP 404: Not Found", [("bin/opt-linux-x64", "")]) ∧
    fsGet [("bin/opt-linux-x64", "")] "bin/opt-linux-x64" = some "" := by
  constructor <;> rfl

/-- The `skippedInCI` field of the gate results always records the
bypass flag, whichever way the gates go. -/
theorem runSecurityGates_skippedInCI (isCI : Bool)
    (g1 : Except String ApiKeyResult) (g2 : Except String String)
    (g3 : Except String VerificationResult) :
    (runSecurityGates isCI g1 g2 g3).1.skippedInCI = isCI := by
  rcases isCI <;> rcases g1 with m | a <;> rcases g2 with m' | p <;>
    rcases g3 with m'' | v <;> simp [runSecurityGates]

/-- C3: the gate sequencer yields an overall pass with the skipped
marker set, invoking no collaborator at all, exactly when the strict-CI
conjunction holds (the `CI` variable truthy per the source together with
at least one provider marker) or the developer override flag is set;
and the `CI` variable alone, with no provider signal and no override,
does not bypass. -/
theorem C3_bypass_condition (e : Env) (g1 : Except String ApiKeyResult)
    (g2 : Except String String) (g3 : Except String VerificationResult) :
    (((runSecurityGates (detectCIEnvironment e) g1 g2 g3).1.overall = true ∧
      (runSecurityGates (detectCIEnvironment e) g1 g2 g3).1.skippedInCI = true ∧
      (runSecurityGates (detectCIEnvironment e) g1 g2 g3).2 = []) ↔
      (strictCI e = true ∨ devOverride e = true)) ∧
    detectCIEnvironment { ci := some "true" } = false := by
  refine ⟨?_, by decide⟩
  constructor
  · rintro ⟨hov, hskip, hcalls⟩
    have hb : detectCIEnvironment e = true := by
      rw [← runSecurityGates_skippedInCI (detectCIEnvironment e) g1 g2 g3]
      exact hskip
    rw [detectCIEnvironment] at hb
    rcases Bool.or_eq_true_iff.mp hb with h | h
    exacts [Or.inl h, Or.inr h]
  · intro hor
    have hb : detectCIEnvironment e = true := by
      rw [detectCIEnvironment]
      rcases hor with h | h <;> simp [h]
    rw [hb]
    refine ⟨?_, ?_, ?_⟩ <;> simp [runSecurityGates]

/-- Witness for C3 (Scenario D): strict CI signals set, all three
collaborators would fail, yet the run passes with `skipped = true` and
no collaborator is invoked. -/
theorem C3_bypass_condition_witness :
    (runSecurityGates (detectCIEnvironment
        { ci := some "true", github_actions := some "true" })
        (.error "no key") (.error "no binary") (.error "no verify")).1.overall = true ∧
    (runSecurityGates (detectCIEnvironment
        { ci := some "true", github_actions := some "true" })
        (.error "no key") (.error "no binary") (.error "no verify")).1.skippedInCI = true ∧
    (runSecurityGates (detectCIEnvironment
        { ci := some "true", github_actions := some "true" })
        (.error "no key") (.error "no binary") (.error "no verify")).2 = [] :=
  (C3_bypass_condition { ci := some "true", github_actions := some "true" }
      (.error "no key") (.error "no binary") (.error "no verify")).1.mpr
    (Or.inl (by decide))

/-- C4: in a non-bypassed installation attempt the gates are ordered and
short-circuiting — a Gate 1 (credential) failure leaves Gates 2-4
uninvoked, a Gate 2 failure leaves Gates 3-4 uninvoked, and a Gate 3
failure leaves Gate 4 uninvoked. -/
theorem C4_gate_ordering (g1 : Except String ApiKeyResult)
    (g2 : Except String String) (g3 : Except String VerificationResult)
    (compat : CompatResults) :
    (∀ m, g1 = .error m →
        (runInstallerPipeline false g1 g2 g3 compat).2 = [GateCall.apiKey]) ∧
    (∀ a m, g1 = .ok a → g2 = .error m →
        (runInstallerPipeline false g1 g2 g3 compat).2 =
          [GateCall.apiKey, GateCall.binaryAvailability]) ∧
    (∀ a p m, g1 = .ok a → g2 = .ok p → g3 = .error m →
        (runInstallerPipeline false g1 g2 g3 compat).2 =
          [GateCall.apiKey, GateCall.binaryAvailability, GateCall.binaryIntegrity]) := by
  refine ⟨?_, ?_, ?_⟩
  · rintro m rfl
    simp [runInstallerPipeline, runSecurityGates]
  · rintro a m rfl rfl
    simp [runInstallerPipeline, runSecurityGates]
  · rintro a p m rfl rfl rfl
    simp [runInstallerPipeline, runSecurityGates]

/-- Witness for C4: each of the three failure points at concrete
collaborators, with compatibility sub-checks that would pass. -/
theorem C4_gate_ordering_witness :
    (runInstallerPipeline false (.error "bad key") (.ok "bin/opt")
        (.ok { verified := true })
        { nodeVersion := { passed := true }, platform := { passed := true },
          permissions := { passed := true } }).2 = [GateCall.apiKey] ∧
    (runInstallerPipeline false (.ok { tier := "basic" }) (.error "net down")
        (.ok { verified := true })
        { nodeVersion := { passed := true }, platform := { passed := true },
          permissions := { passed := true } }).2 =
      [GateCall.apiKey, GateCall.binaryAvailability] ∧
    (runInstallerPipeline false (.ok { tier := "basic" }) (.ok "bin/opt")
        (.error "hash mismatch")
        { nodeVersion := { passed := true }, platform := { passed := true },
          permissions := { passed := true } }).2 =
      [GateCall.apiKey, GateCall.binaryAvailability, GateCall.binaryIntegrity] :=
  ⟨(C4_gate_ordering _ _ _ _).1 "bad key" rfl,
   (C4_gate_ordering _ _ _ _).2.1 { tier := "basic" } "net down" rfl rfl,
   (C4_gate_ordering _ _ _ _).2.2 { tier := "basic" } "bin/opt" "hash mismatch"
     rfl rfl rfl⟩
